import Mathlib

/-!
# Verification of the hazard-aware routing and live navigation engine

Shallow embedding of the core services of the Smartroadsafety repository:

* `HazardService` (src/Landing.jsx): hazard store with validation, duplicate
  suppression, spatial queries and the background expiry sweep;
* `RoutingService` (src/RoutingService.js): candidate-route acquisition with
  straight-line fallback, safety scoring, and best-route selection;
* `NavigationController` (src/unnamed/part_000): live navigation session,
  deviation detection, reroute throttling and statistics recomputation;
* the speed derivation of `startGeolocation` (src/AuthModal.jsx).

Geographic primitives that evaluate transcendental functions
(`haversineDistance`, `calculateBearing`) are modelled as oracle parameters
`hav`/`brg : P → P → ℚ`; every other arithmetic step of the source is
reproduced exactly over `ℚ`.  JavaScript `Infinity` is modelled with
`WithTop ℚ`, and the IEEE special values that reach `routeProgress` are
modelled with the explicit `JSNum` type.
-/

namespace SmartRoad

/-- A latitude/longitude pair (`{lat, lng}` objects of the source). -/
structure P where
  lat : ℚ
  lng : ℚ
deriving DecidableEq, Repr

/-- GeoJSON-style geometry of a hazard: `Point` carries `[lng, lat]`
coordinates, `Polygon` carries its first ring as `[lng, lat]` pairs. -/
inductive Geometry where
  | point (lng lat : ℚ)
  | polygon (ring : List (ℚ × ℚ))
deriving DecidableEq, Repr

/-- Stored hazard properties (`properties` object after `addHazard` stamps
them).  `updatedAt` is the timestamp in milliseconds. -/
structure HazardProps where
  severity : ℚ
  description : String
  updatedAt : ℚ
deriving DecidableEq, Repr

/-- A stored hazard. -/
structure Hazard where
  id : String
  type : String
  geometry : Geometry
  props : HazardProps
deriving DecidableEq, Repr

/-- Draft properties handed to `addHazard`; `severity`/`description` may be
absent. -/
structure DraftProps where
  severity : Option ℚ
  description : Option String
deriving DecidableEq, Repr

/-- A hazard draft handed to `addHazard`; the three required fields may be
absent (JS `undefined`), which the source detects by truthiness. -/
structure HazardDraft where
  type : Option String
  geometry : Option Geometry
  properties : Option DraftProps
deriving DecidableEq, Repr

/-- Events emitted by the hazard store (`notifyListeners`). -/
inductive HazardEvent where
  | hazardAdded (h : Hazard)
  | hazardRemoved (h : Hazard)
deriving DecidableEq, Repr

/-- `clamp(n, min, max)` of src/Landing.jsx: `Math.max(min, Math.min(max, n))`. -/
def clampQ (n lo hi : ℚ) : ℚ := max lo (min hi n)

/-- JS `x || d` for an optional numeric field (`0` is falsy, so it falls back
to the default exactly when the stored value is `0` or absent). -/
def jsOrQ (o : Option ℚ) (d : ℚ) : ℚ :=
  match o with
  | some s => if s = 0 then d else s
  | none => d

/-- JS `x || d` for an optional string field (the empty string is falsy). -/
def jsOrStr (o : Option String) (d : String) : String :=
  match o with
  | some s => if s = "" then d else s
  | none => d

/-- Result of `HazardService.addHazard`: the returned value, the store after
the call, and the events delivered to listeners. -/
structure AddResult where
  result : Option Hazard
  hazards : List Hazard
  events : List HazardEvent
deriving DecidableEq, Repr

/-- `HazardService.addHazard` (src/Landing.jsx:647-695).  `hav` is the
haversine-distance oracle, `nowMs` models `Date.now()`, `rand` the random id
suffix.  Field-presence validation, Point coordinate-range validation, the
100 m same-kind duplicate check, severity clamping, id/time stamping and the
`hazardAdded` event are reproduced in source order. -/
def addHazard (hav : P → P → ℚ) (nowMs : ℕ) (rand : String)
    (store : List Hazard) (draft : HazardDraft) : AddResult :=
  match draft.type, draft.geometry, draft.properties with
  | some t, some geom, some props =>
    if t = "" then ⟨none, store, []⟩
    else
      let coordsInvalid : Bool :=
        match geom with
        | .point lng lat =>
            decide (lng < -180) || decide (lng > 180) ||
            decide (lat < -90) || decide (lat > 90)
        | .polygon _ => false
      if coordsInvalid then ⟨none, store, []⟩
      else
        let isDuplicate : Bool := store.any fun existing =>
          match existing.geometry, geom with
          | .point elng elat, .point nlng nlat =>
              decide (hav ⟨elat, elng⟩ ⟨nlat, nlng⟩ < 100) &&
              decide (existing.type = t)
          | _, _ => false
        if isDuplicate then ⟨none, store, []⟩
        else
          let newHazard : Hazard :=
            { id := t ++ "-" ++ toString nowMs ++ "-" ++ rand
              type := t
              geometry := geom
              props :=
                { severity := clampQ (jsOrQ props.severity 1) 1 3
                  description := jsOrStr props.description ("Reported " ++ t)
                  updatedAt := (nowMs : ℚ) } }
          ⟨some newHazard, store ++ [newHazard], [.hazardAdded newHazard]⟩
  | _, _, _ => ⟨none, store, []⟩

/-- Models `id.startsWith('risk-')` of the expiry sweep: the first five
characters of the id are compared against `risk-`. -/
def idKeptBySweep (id : String) : Bool :=
  id.data.take 5 == ['r', 'i', 's', 'k', '-']

/-- The body of the hazard-expiry interval of `HazardService.startSimulation`
(src/Landing.jsx:921-928): keep a hazard iff its `updatedAt` is strictly
newer than five minutes ago or its id starts with `risk-`. -/
def expirySweep (now : ℚ) (hazards : List Hazard) : List Hazard :=
  let fiveMinutesAgo := now - 5 * 60 * 1000
  hazards.filter fun hazard =>
    decide (hazard.props.updatedAt > fiveMinutesAgo) || idKeptBySweep hazard.id

/-- `pointToLineDistance` (src/RoutingService.js:23-41 and src/Landing.jsx):
planar dot-product projection onto the segment, parameter clamped to `[0, 1]`,
then the haversine oracle `hav` applied to the projected point. -/
def pointToLineDistance (hav : P → P → ℚ) (point lineStart lineEnd : P) : ℚ :=
  let A := point.lat - lineStart.lat
  let B := point.lng - lineStart.lng
  let C := lineEnd.lat - lineStart.lat
  let D := lineEnd.lng - lineStart.lng
  let dot := A * C + B * D
  let lenSq := C * C + D * D
  if lenSq = 0 then hav point lineStart
  else
    let param := max 0 (min 1 (dot / lenSq))
    hav point ⟨lineStart.lat + param * C, lineStart.lng + param * D⟩

/-- The consecutive coordinate pairs (`routeCoords[i]`, `routeCoords[i+1]`)
iterated by the segment loops of the source. -/
def segPairs (coords : List P) : List (P × P) :=
  coords.zip coords.tail

/-- `getMinDistanceToRoute` (src/RoutingService.js:214-223 and
src/Landing.jsx:756-765).  The source initialises `minDistance = Infinity`;
`none` models `Infinity` (no segment visited). -/
def getMinDistanceToRoute (hav : P → P → ℚ) (point : P) (routeCoords : List P) :
    Option ℚ :=
  (segPairs routeCoords).foldl
    (fun minDistance ab =>
      let d := pointToLineDistance hav point ab.1 ab.2
      match minDistance with
      | none => some d
      | some m => some (min m d))
    none

/-- `pointInPolygon` (src/RoutingService.js:44-57 and src/Landing.jsx):
even-odd ray casting over vertex pairs `(i, j)` with `j` the predecessor of
`i` (wrapping to the last vertex for `i = 0`). -/
def pointInPolygon (point : P) (polygon : List P) : Bool :=
  (List.range polygon.length).foldl
    (fun inside i =>
      let j := if i = 0 then polygon.length - 1 else i - 1
      let vi := polygon.getD i ⟨0, 0⟩
      let vj := polygon.getD j ⟨0, 0⟩
      if (decide (vi.lat > point.lat) != decide (vj.lat > point.lat)) &&
         decide (point.lng <
           (vj.lng - vi.lng) * (point.lat - vi.lat) / (vj.lat - vi.lat) + vi.lng)
      then !inside else inside)
    false

/-- The `orientation` helper of `lineSegmentsIntersect`
(src/RoutingService.js:247-251). -/
def orientationOf (p q r : P) : ℕ :=
  let val := (q.lng - p.lng) * (r.lat - q.lat) - (q.lat - p.lat) * (r.lng - q.lng)
  if val = 0 then 0 else if val > 0 then 1 else 2

/-- The `onSegment` helper of `lineSegmentsIntersect`
(src/RoutingService.js:253-256). -/
def onSegmentOf (p q r : P) : Bool :=
  decide (q.lng ≤ max p.lng r.lng) && decide (q.lng ≥ min p.lng r.lng) &&
  decide (q.lat ≤ max p.lat r.lat) && decide (q.lat ≥ min p.lat r.lat)

/-- `lineSegmentsIntersect` (src/RoutingService.js:246-271). -/
def lineSegmentsIntersect (p1 q1 p2 q2 : P) : Bool :=
  let o1 := orientationOf p1 q1 p2
  let o2 := orientationOf p1 q1 q2
  let o3 := orientationOf p2 q2 p1
  let o4 := orientationOf p2 q2 q1
  if o1 ≠ o2 ∧ o3 ≠ o4 then true
  else if o1 = 0 ∧ onSegmentOf p1 p2 q1 then true
  else if o2 = 0 ∧ onSegmentOf p1 q2 q1 then true
  else if o3 = 0 ∧ onSegmentOf p2 p1 q2 then true
  else if o4 = 0 ∧ onSegmentOf p2 q1 q2 then true
  else false

/-- `routeIntersectsPolygon` (src/RoutingService.js:226-243): either segment
endpoint inside the polygon, or the segment crosses some polygon edge
(edges taken with wrap-around `(i+1) % n`). -/
def routeIntersectsPolygon (segStart segEnd : P) (polygon : List P) : Bool :=
  if pointInPolygon segStart polygon || pointInPolygon segEnd polygon then true
  else
    (List.range polygon.length).any fun i =>
      let polyStart := polygon.getD i ⟨0, 0⟩
      let polyEnd := polygon.getD ((i + 1) % polygon.length) ⟨0, 0⟩
      lineSegmentsIntersect segStart segEnd polyStart polyEnd

/-- `HAZARD_CONFIG[type]?.priority || 0` (src/Landing.jsx:554-587). -/
def hazardPriority (t : String) : ℚ :=
  if t = "accident" then 4
  else if t = "construction" then 3
  else if t = "pothole" then 2
  else if t = "portal" then 1
  else if t = "riskArea" then 5
  else 0

/-- A hazard annotated with `distanceToRoute`, as produced by
`filterHazardsByRoute`. -/
structure RouteHazard where
  h : Hazard
  distanceToRoute : ℚ
deriving DecidableEq, Repr

/-- Insertion of one element into a list sorted by the boolean relation
`le`; models one step of the JS comparator sort. -/
def insertSorted {α : Type} (le : α → α → Bool) (r : α) : List α → List α
  | [] => [r]
  | x :: xs => if le r x then r :: x :: xs else x :: insertSorted le r xs

/-- Sorting by a boolean comparator relation (models `Array.prototype.sort`
with the given comparator; only the ordering relation matters to the
claims, which are membership- and head-based). -/
def sortByRel {α : Type} (le : α → α → Bool) (rs : List α) : List α :=
  rs.foldr (insertSorted le) []

/-- The comparator of `filterHazardsByRoute` (src/Landing.jsx:743-752):
higher `HAZARD_CONFIG` priority first, then smaller `distanceToRoute`. -/
def routeHazardLe (a b : RouteHazard) : Bool :=
  let priorityA := hazardPriority a.h.type
  let priorityB := hazardPriority b.h.type
  if priorityA ≠ priorityB then decide (priorityB ≤ priorityA)
  else decide (a.distanceToRoute ≤ b.distanceToRoute)

/-- `polygonIntersectsRouteBuffer` (src/Landing.jsx:768-787): some route
vertex inside the polygon, or some polygon vertex within `bufferMeters` of
the route. -/
def polygonIntersectsRouteBuffer (hav : P → P → ℚ) (ring : List (ℚ × ℚ))
    (routeCoords : List P) (bufferMeters : ℚ) : Bool :=
  let polygon := ring.map fun c => P.mk c.2 c.1
  routeCoords.any (fun coord => pointInPolygon coord polygon) ||
  polygon.any (fun vertex =>
    match getMinDistanceToRoute hav vertex routeCoords with
    | some minDistance => decide (minDistance ≤ bufferMeters)
    | none => false)

/-- `RouteData` is the route record of src/RoutingService.js: coordinates as
`{lat, lng}` pairs, provider metrics, instruction steps and the mutable
safety score. -/
structure Instr where
  text : Option String
  distance : ℚ
  itype : Option String
deriving DecidableEq, Repr

/-- A route (`parseORSResponse` / `createFallbackRoute` output). -/
structure Route where
  id : String
  coordinates : List P
  distance : ℚ
  duration : ℚ
  instructions : List Instr
  safetyScore : ℚ
deriving DecidableEq, Repr

instance : Inhabited Route :=
  ⟨{ id := "", coordinates := [], distance := 0, duration := 0,
     instructions := [], safetyScore := 0 }⟩

/-- `HazardService.filterHazardsByRoute` (src/Landing.jsx:709-753). -/
def filterHazardsByRoute (hav : P → P → ℚ) (hazards : List Hazard)
    (route : Route) (bufferMeters : ℚ) : List RouteHazard :=
  if route.coordinates.length < 2 then []
  else
    let filteredHazards := hazards.foldl
      (fun acc hazard =>
        match hazard.geometry with
        | .point lng lat =>
            match getMinDistanceToRoute hav ⟨lat, lng⟩ route.coordinates with
            | some minDistance =>
                if minDistance ≤ bufferMeters then acc ++ [⟨hazard, minDistance⟩]
                else acc
            | none => acc
        | .polygon ring =>
            if polygonIntersectsRouteBuffer hav ring route.coordinates bufferMeters
            then acc ++ [⟨hazard, 0⟩] else acc)
      []
    sortByRel routeHazardLe filteredHazards

/-- A hazard annotated with `distanceToRoute` and `distanceFromUser`, as
produced by `getUpcomingHazards`. -/
structure UpcomingHazard where
  h : Hazard
  distanceToRoute : ℚ
  distanceFromUser : ℚ
deriving DecidableEq, Repr

/-- The loop body of `HazardService.getUpcomingHazards`
(src/Landing.jsx:853-868): a route hazard is appended iff it has Point
geometry and lies within `lookAheadMeters` of the agent. -/
def upcomingStep (hav : P → P → ℚ) (currentPosition : P) (lookAheadMeters : ℚ)
    (acc : List UpcomingHazard) (hazard : RouteHazard) : List UpcomingHazard :=
  match hazard.h.geometry with
  | .point lng lat =>
      let distanceFromUser := hav currentPosition ⟨lat, lng⟩
      if distanceFromUser ≤ lookAheadMeters then
        acc ++ [⟨hazard.h, hazard.distanceToRoute, distanceFromUser⟩]
      else acc
  | .polygon _ => acc

/-- `HazardService.getUpcomingHazards` (src/Landing.jsx:847-871): hazards
within 50 m of the route, restricted to Point geometries within
`lookAheadMeters` of the agent, sorted by distance from the agent; the
iteration body is `upcomingStep`. -/
def getUpcomingHazards (hav : P → P → ℚ) (hazards : List Hazard)
    (currentPosition : P) (route : Route) (lookAheadMeters : ℚ) :
    List UpcomingHazard :=
  let routeHazards := filterHazardsByRoute hav hazards route 50
  let upcoming :=
    routeHazards.foldl (upcomingStep hav currentPosition lookAheadMeters) []
  sortByRel (fun a b => decide (a.distanceFromUser ≤ b.distanceFromUser)) upcoming

/-- `SAFETY_WEIGHTS[type] || 5` (src/RoutingService.js:60-66, 202): the
weight table with default `5` for unknown kinds. -/
def safetyWeight (t : String) : ℚ :=
  if t = "riskArea" then 50
  else if t = "accident" then 30
  else if t = "construction" then 20
  else if t = "pothole" then 10
  else if t = "portal" then 5
  else 5

/-- The score contribution of a single Point hazard with kind weight `W`
whose minimum distance to the route is `d` (the body of the Point branch of
`calculateSafetyScore`, src/RoutingService.js:200-206). -/
def pointContribution (W d : ℚ) : ℚ :=
  if d ≤ 100 then W * (1 - d / 100) else 0

/-- `RoutingService.calculateSafetyScore` (src/RoutingService.js:175-211):
for a `riskArea` Polygon hazard, 50 per route segment touching the polygon;
for a Point hazard within the 100 m buffer, a linearly decaying penalty. -/
def calculateSafetyScore (hav : P → P → ℚ) (route : Route)
    (hazards : List Hazard) : ℚ :=
  hazards.foldl
    (fun totalPenalty hazard =>
      match hazard.geometry with
      | .polygon ring =>
          if hazard.type = "riskArea" then
            let polygon := ring.map fun c => P.mk c.2 c.1
            (segPairs route.coordinates).foldl
              (fun t ab =>
                if routeIntersectsPolygon ab.1 ab.2 polygon then t + 50 else t)
              totalPenalty
          else totalPenalty
      | .point lng lat =>
          match getMinDistanceToRoute hav ⟨lat, lng⟩ route.coordinates with
          | some minDistance =>
              if minDistance ≤ 100 then
                totalPenalty +
                  safetyWeight hazard.type * (1 - minDistance / 100)
              else totalPenalty
          | none => totalPenalty)
    0

/-- `bearingToDirection` (src/RoutingService.js:307-311); `Math.round` is
`⌊x + 1/2⌋`. -/
def bearingToDirection (bearing : ℚ) : String :=
  let directions := ["N", "NE", "E", "SE", "S", "SW", "W", "NW"]
  directions.getD ((⌊bearing / 45 + 1 / 2⌋).toNat % 8) "N"

/-- `interpolatePoint` (src/RoutingService.js:313-318). -/
def interpolatePoint (start stop : P) (fraction : ℚ) : P :=
  ⟨start.lat + (stop.lat - start.lat) * fraction,
   start.lng + (stop.lng - start.lng) * fraction⟩

/-- `createFallbackRoute` (src/RoutingService.js:143-172): a straight-line
polyline with `max 2 ⌊distance/1000⌋` intervals, so `numWaypoints + 1`
coordinates in total, duration at ~50 km/h, and one bearing instruction.
`brg` is the `calculateBearing` oracle. -/
def createFallbackRoute (hav brg : P → P → ℚ) (start stop : P) : Route :=
  let distance := hav start stop
  let bearing := brg start stop
  let numWaypoints := max 2 (⌊distance / 1000⌋.toNat)
  let waypoints :=
    [start] ++
    ((List.range' 1 (numWaypoints - 1)).map fun i =>
      interpolatePoint start stop ((i : ℚ) / (numWaypoints : ℚ))) ++
    [stop]
  { id := "fallback-route"
    coordinates := waypoints
    distance := distance
    duration := distance / (1389 / 100)
    instructions :=
      [⟨some ("Head " ++ bearingToDirection bearing ++ " toward destination"),
        distance, none⟩]
    safetyScore := 0 }

/-- One feature of the ORS GeoJSON response: the raw coordinate sequence
(`[lng, lat]` pairs) and the optional first-segment metrics. -/
structure ORSFeature where
  coordinates : List (ℚ × ℚ)
  distance : Option ℚ
  duration : Option ℚ
  steps : List Instr
deriving DecidableEq, Repr

/-- The outcome of the provider request observed by `getRouteOptions`: a
network/HTTP/parse failure (the `catch` path) or a parsed body with a
feature list (an absent or empty `features` array is the empty list). -/
inductive ORSResponse where
  | failure
  | success (features : List ORSFeature)
deriving DecidableEq, Repr

/-- The per-feature constructor of `parseORSResponse`
(src/RoutingService.js:127-139). -/
def mkParsedRoute (i : ℕ) (f : ORSFeature) : Route :=
  { id := "route-" ++ toString i
    coordinates := f.coordinates.map fun c => P.mk c.2 c.1
    distance := jsOrQ f.distance 0
    duration := jsOrQ f.duration 0
    instructions := f.steps
    safetyScore := 0 }

/-- The index-carrying map of `parseORSResponse`
(src/RoutingService.js:122-140). -/
def parseFeatures : ℕ → List ORSFeature → List Route
  | _, [] => []
  | i, f :: fs => mkParsedRoute i f :: parseFeatures (i + 1) fs

/-- `parseORSResponse` (src/RoutingService.js:122-140). -/
def parseORSResponse (features : List ORSFeature) : List Route :=
  parseFeatures 0 features

/-- `getRouteOptions` (src/RoutingService.js:76-119) for one request, with
the provider outcome supplied as `resp` (the per-(start,end) cache stores
exactly the value computed here on first call and is omitted).  Provider
failure and an empty parse both degrade to the single fallback route. -/
def getRouteOptions (hav brg : P → P → ℚ) (start stop : P)
    (resp : ORSResponse) : List Route :=
  match resp with
  | .failure => [createFallbackRoute hav brg start stop]
  | .success features =>
      let routes := parseORSResponse features
      if routes.length > 0 then routes
      else [createFallbackRoute hav brg start stop]

/-- The comparator of `getBestRoute` (src/RoutingService.js:284-290):
scores within `5` of each other are tied and broken by distance, otherwise
ascending safety score. -/
def routeLe (a b : Route) : Bool :=
  if |a.safetyScore - b.safetyScore| < 5 then decide (a.distance ≤ b.distance)
  else decide (a.safetyScore ≤ b.safetyScore)

/-- `getBestRoute` (src/RoutingService.js:274-293): score every candidate,
sort by the tie-tolerant comparator, return the first.  The `headD` default
is never reached because `getRouteOptions` always returns at least one
route. -/
def getBestRoute (hav brg : P → P → ℚ) (start stop : P)
    (hazards : List Hazard) (resp : ORSResponse) : Route :=
  let routes := getRouteOptions hav brg start stop resp
  let scored := routes.map fun route =>
    { route with safetyScore := calculateSafetyScore hav route hazards }
  (sortByRel routeLe scored).headD (createFallbackRoute hav brg start stop)

/-- JavaScript numbers as far as the navigation statistics need them: a
rational value, the two infinities, or `NaN`.  Rounding of finite values is
not modelled (irrelevant to the range claims); the special values follow
IEEE-754 / JS semantics exactly.  Signed zero is collapsed to `0`. -/
inductive JSNum where
  | nan
  | posInf
  | negInf
  | num (q : ℚ)
deriving DecidableEq, Repr

/-- JS division. -/
def jsDiv : JSNum → JSNum → JSNum
  | .nan, _ => .nan
  | _, .nan => .nan
  | .num a, .num b =>
      if b = 0 then (if a = 0 then .nan else if a > 0 then .posInf else .negInf)
      else .num (a / b)
  | .posInf, .num b => if b < 0 then .negInf else .posInf
  | .negInf, .num b => if b < 0 then .posInf else .negInf
  | .num _, .posInf => .num 0
  | .num _, .negInf => .num 0
  | .posInf, .posInf => .nan
  | .posInf, .negInf => .nan
  | .negInf, .posInf => .nan
  | .negInf, .negInf => .nan

/-- JS subtraction. -/
def jsSub : JSNum → JSNum → JSNum
  | .nan, _ => .nan
  | _, .nan => .nan
  | .num a, .num b => .num (a - b)
  | .num _, .posInf => .negInf
  | .num _, .negInf => .posInf
  | .posInf, .num _ => .posInf
  | .negInf, .num _ => .negInf
  | .posInf, .posInf => .nan
  | .posInf, .negInf => .posInf
  | .negInf, .posInf => .negInf
  | .negInf, .negInf => .nan

/-- `Math.min` (returns `NaN` if any argument is `NaN`). -/
def jsMin : JSNum → JSNum → JSNum
  | .nan, _ => .nan
  | _, .nan => .nan
  | .num a, .num b => .num (min a b)
  | .negInf, _ => .negInf
  | _, .negInf => .negInf
  | .posInf, x => x
  | x, .posInf => x

/-- `Math.max` (returns `NaN` if any argument is `NaN`). -/
def jsMax : JSNum → JSNum → JSNum
  | .nan, _ => .nan
  | _, .nan => .nan
  | .num a, .num b => .num (max a b)
  | .posInf, _ => .posInf
  | _, .posInf => .posInf
  | .negInf, x => x
  | x, .negInf => x

/-- Embed `Infinity`-or-rational into `JSNum`. -/
def JSNum.ofWithTop : WithTop ℚ → JSNum
  | ⊤ => .posInf
  | (q : ℚ) => .num q

/-- Navigation events (`notifyListeners` of src/unnamed/part_000). -/
inductive NavEvent where
  | navigationStarted
  | navigationStopped
  | positionUpdated
  | rerouting
  | routeUpdated (reason : String)
  | rerouteError
  | destinationReached
deriving DecidableEq, Repr

/-- A rendered next-turn instruction (`findNextTurn` result). -/
structure Turn where
  text : String
  distance : ℚ
  ttype : String
deriving DecidableEq, Repr

/-- `navigationStats` of the controller.  `routeProgress` is absent
(`undefined`) until the first `updateNavigationStats`, hence the `Option`. -/
structure NavStats where
  distanceRemaining : JSNum
  timeRemaining : JSNum
  nextTurn : Option Turn
  upcomingHazards : List UpcomingHazard
  routeProgress : Option JSNum
deriving DecidableEq, Repr

/-- The initial `navigationStats` of the constructor
(src/unnamed/part_000:59-64). -/
def initialStats : NavStats :=
  { distanceRemaining := .num 0
    timeRemaining := .num 0
    nextTurn := none
    upcomingHazards := []
    routeProgress := none }

/-- The controller settings (src/unnamed/part_000:67-73); defaults are the
constructor values. -/
structure NavSettings where
  routeDeviationThreshold : ℚ := 100
  rerouteDelay : ℚ := 5000
  hazardLookAhead : ℚ := 1000
deriving DecidableEq, Repr

/-- The mutable state of `NavigationController`. -/
structure NavState where
  isNavigating : Bool
  isRerouting : Bool
  currentRoute : Option Route
  destination : Option P
  currentPosition : Option P
  lastRerouteTime : ℚ
  settings : NavSettings
  stats : NavStats
deriving DecidableEq, Repr

/-- Result of `findClosestPointOnRoute`: the source initialises
`closestPoint = routeCoords[0]` (undefined for an empty route, hence the
`Option`), `closestIndex = 0` and `minDistance = Infinity` (`⊤`). -/
structure ClosestPt where
  point : Option P
  index : ℕ
  distance : WithTop ℚ
deriving DecidableEq, Repr

/-- The loop of `findClosestPointOnRoute` (src/unnamed/part_000:34-49). -/
def findClosestAux (hav : P → P → ℚ) (position : P) :
    List P → ℕ → ClosestPt → ClosestPt
  | [], _, acc => acc
  | c :: rest, i, acc =>
      let d : WithTop ℚ := (hav position c : ℚ)
      findClosestAux hav position rest (i + 1)
        (if d < acc.distance then ⟨some c, i, d⟩ else acc)

/-- `findClosestPointOnRoute` (src/unnamed/part_000:34-49): linear scan for
the route vertex nearest to `position`. -/
def findClosestPointOnRoute (hav : P → P → ℚ) (position : P)
    (routeCoords : List P) : ClosestPt :=
  findClosestAux hav position routeCoords 0 ⟨routeCoords.head?, 0, ⊤⟩

/-- The remaining-distance computation of `updateNavigationStats`
(src/unnamed/part_000:255-262): segment lengths from the closest vertex to
the end, plus the distance from the current position to that vertex. -/
def remainingDistanceOf (hav : P → P → ℚ) (position : P) (coords : List P) :
    WithTop ℚ :=
  let closest := findClosestPointOnRoute hav position coords
  let segmentSum : ℚ :=
    (segPairs (coords.drop closest.index)).foldl (fun t ab => t + hav ab.1 ab.2) 0
  (segmentSum : WithTop ℚ) + closest.distance

/-- `findNextTurn` (src/unnamed/part_000:288-306). -/
def findNextTurn (currentIndex : ℕ) (instrs : List Instr) : Option Turn :=
  if currentIndex ≥ instrs.length then none
  else instrs.findSome? fun ins =>
    if ins.distance > 0 then
      some ⟨(ins.text).getD "Continue straight", ins.distance,
            (ins.itype).getD "straight"⟩
    else none

/-- The JS evaluation of
`Math.max(0, Math.min(1, 1 - remaining / distance))`
(src/unnamed/part_000:283). -/
def jsProgress (remaining : WithTop ℚ) (distance : ℚ) : JSNum :=
  jsMax (.num 0) (jsMin (.num 1)
    (jsSub (.num 1) (jsDiv (JSNum.ofWithTop remaining) (.num distance))))

/-- `updateNavigationStats` (src/unnamed/part_000:247-285): recomputes the
derived statistics when a route and a position are present; otherwise the
state is untouched.  `routeProgress` is `jsProgress` of the remaining
distance and the route's recorded distance. -/
def updateNavigationStats (hav : P → P → ℚ) (hazards : List Hazard)
    (s : NavState) : NavState :=
  match s.currentRoute, s.currentPosition with
  | some route, some position =>
      let routeCoords := route.coordinates
      let closest := findClosestPointOnRoute hav position routeCoords
      let remainingDistance := remainingDistanceOf hav position routeCoords
      let remainingJS := JSNum.ofWithTop remainingDistance
      let remainingTime := jsDiv remainingJS (.num (833 / 100))
      let nextTurn := findNextTurn closest.index route.instructions
      let upcomingHazards :=
        getUpcomingHazards hav hazards position route s.settings.hazardLookAhead
      { s with stats :=
        { distanceRemaining := remainingJS
          timeRemaining := remainingTime
          nextTurn := nextTurn
          upcomingHazards := upcomingHazards
          routeProgress := some (jsProgress remainingDistance route.distance) } }
  | _, _ => s

/-- Outcome of the awaited `RoutingService.getBestRoute` call inside a
reroute: the obtained route, or a thrown error (`catch` path). -/
inductive RerouteOutcome where
  | ok (r : Route)
  | failed
deriving DecidableEq, Repr

/-- Result of running one controller entry point: the state afterwards,
whether a reroute computation (a `getBestRoute` request) was actually
issued, and the events notified to listeners, in order. -/
structure StepResult where
  state : NavState
  requestIssued : Bool
  events : List NavEvent
deriving DecidableEq, Repr

/-- `stopNavigation` (src/unnamed/part_000:119-130), minus the geolocation
watch teardown (environment glue). -/
def stopNavigation (s : NavState) : NavState :=
  { s with isNavigating := false, currentRoute := none, destination := none }

/-- `handleRouteDeviation` (src/unnamed/part_000:200-234).  `now` models
`Date.now()` and `outcome` the awaited `getBestRoute` result.  Within the
cooldown the call returns without issuing a request; otherwise it emits
`rerouting`, issues the request, applies the obtained route (recomputing
stats) or emits `rerouteError`, and always clears `isRerouting` in the
`finally` block. -/
def handleRouteDeviation (hav : P → P → ℚ) (hazards : List Hazard) (now : ℚ)
    (outcome : RerouteOutcome) (s : NavState) : StepResult :=
  if now - s.lastRerouteTime < s.settings.rerouteDelay then ⟨s, false, []⟩
  else
    let s1 := { s with isRerouting := true, lastRerouteTime := now }
    match outcome with
    | .ok newRoute =>
        let s2 := updateNavigationStats hav hazards
          { s1 with currentRoute := some newRoute }
        ⟨{ s2 with isRerouting := false }, true,
         [.rerouting, .routeUpdated "deviation"]⟩
    | .failed =>
        ⟨{ s1 with isRerouting := false }, true, [.rerouting, .rerouteError]⟩

/-- `handlePositionUpdate` (src/unnamed/part_000:164-197): deviation check
against the closest route vertex, conditional reroute, statistics update,
destination-reached detection at 50 m, and the `positionUpdated`
notification. -/
def handlePositionUpdate (hav : P → P → ℚ) (hazards : List Hazard) (now : ℚ)
    (outcome : RerouteOutcome) (s : NavState) (newPosition : P) : StepResult :=
  if !s.isNavigating || s.currentRoute.isNone then ⟨s, false, []⟩
  else
    let s1 := { s with currentPosition := some newPosition }
    let routeCoords := (s1.currentRoute.getD default).coordinates
    let closest := findClosestPointOnRoute hav newPosition routeCoords
    let isOffRoute :=
      decide ((s1.settings.routeDeviationThreshold : WithTop ℚ) < closest.distance)
    let step :=
      if isOffRoute && !s1.isRerouting then
        handleRouteDeviation hav hazards now outcome s1
      else ⟨s1, false, []⟩
    let s2 := updateNavigationStats hav hazards step.state
    let distanceToDestination := hav newPosition (s2.destination.getD ⟨0, 0⟩)
    if distanceToDestination < 50 then
      ⟨stopNavigation s2, step.requestIssued,
       step.events ++ [.destinationReached, .navigationStopped]⟩
    else
      ⟨s2, step.requestIssued, step.events ++ [.positionUpdated]⟩

/-- `forceReroute` (src/unnamed/part_000:330-362): returns immediately when
not navigating or position/destination are missing; otherwise it sets
`isRerouting`, issues the request unconditionally (no check of the previous
`isRerouting` value), applies a truthy result, and clears `isRerouting` in
the `finally` block. -/
def forceReroute (hav : P → P → ℚ) (hazards : List Hazard)
    (outcome : RerouteOutcome) (s : NavState) : StepResult :=
  if !s.isNavigating || s.currentPosition.isNone || s.destination.isNone then
    ⟨s, false, []⟩
  else
    let s1 := { s with isRerouting := true }
    match outcome with
    | .ok newRoute =>
        let s2 := updateNavigationStats hav hazards
          { s1 with currentRoute := some newRoute }
        ⟨{ s2 with isRerouting := false }, true, [.routeUpdated "manual"]⟩
    | .failed =>
        ⟨{ s1 with isRerouting := false }, true, []⟩

/-- One geolocation sample as consumed by `startGeolocation`
(src/AuthModal.jsx): the device-reported speed (`none` models
`null`/`NaN`), the sample timestamp in ms, and the position. -/
structure GeoSample where
  speed : Option ℚ
  timestamp : ℚ
  pos : P
deriving DecidableEq, Repr

/-- `lastPosRef.current` of `startGeolocation` (src/AuthModal.jsx:1297). -/
structure LastPos where
  p : P
  ts : ℚ
  speed : Option ℚ
deriving DecidableEq, Repr

/-- The speed computation of `startGeolocation` (src/AuthModal.jsx:1279-1295):
the device speed is authoritative when present and non-negative; otherwise
the speed is derived from distance/elapsed-time when the interval lies in
(0.5 s, 10 s), blended 70 % previous / 30 % instantaneous when a previous
speed exists, and falls back to the previous speed (or 0) otherwise.
Returns `none` exactly when the source leaves `speedMS` null. -/
def computeSpeedMS (hav : P → P → ℚ) (sample : GeoSample)
    (last : Option LastPos) : Option ℚ :=
  let speedMS : Option ℚ :=
    match sample.speed with
    | some s => if s ≥ 0 then some s else none
    | none => none
  match speedMS with
  | some s => some s
  | none =>
      match last with
      | none => none
      | some lp =>
          let dt := (sample.timestamp - lp.ts) / 1000
          if dt > 1 / 2 ∧ dt < 10 then
            let d := hav lp.p sample.pos
            let instSpeed := d / dt
            match lp.speed with
            | some prev => some (prev * (7 / 10) + instSpeed * (3 / 10))
            | none => some instSpeed
          else some (jsOrQ lp.speed 0)

/-! ## General helper lemmas -/

theorem mem_insertSorted {α : Type} (le : α → α → Bool) (r : α) (l : List α)
    (a : α) : a ∈ insertSorted le r l ↔ a = r ∨ a ∈ l := by
  induction l with
  | nil => simp [insertSorted]
  | cons x xs ih =>
      simp only [insertSorted]
      split
      · simp [List.mem_cons]
      · simp only [List.mem_cons, ih]
        tauto

theorem mem_sortByRel {α : Type} (le : α → α → Bool) (l : List α) (a : α) :
    a ∈ sortByRel le l ↔ a ∈ l := by
  induction l with
  | nil => simp [sortByRel]
  | cons x xs ih =>
      simp only [sortByRel, List.foldr_cons] at ih ⊢
      rw [mem_insertSorted]
      simp [ih]

theorem headD_mem {α : Type} (l : List α) (d : α) (h : l ≠ []) :
    l.headD d ∈ l := by
  cases l with
  | nil => exact absurd rfl h
  | cons x xs => simp

/-! ## Claim C3 — duplicate suppression for nearby same-kind Point hazards -/

/-- Claim C3: for every Point hazard draft `B` of the same kind as an
already-stored Point hazard `A` whose haversine distance to `A` is below
100 m, `addHazard` rejects the insert: it returns `null`, leaves the store
unchanged, and emits no `hazardAdded` event.  (When the draft additionally
fails field or coordinate validation it is rejected even earlier, with the
same observable outcome.) -/
theorem addHazard_rejects_nearby_same_kind
    (hav : P → P → ℚ) (nowMs : ℕ) (rand : String) (store : List Hazard)
    (draft : HazardDraft) (A : Hazard) (elng elat nlng nlat : ℚ)
    (hA : A ∈ store) (hAgeom : A.geometry = .point elng elat)
    (hBtype : draft.type = some A.type)
    (hBgeom : draft.geometry = some (.point nlng nlat))
    (hdist : hav ⟨elat, elng⟩ ⟨nlat, nlng⟩ < 100) :
    addHazard hav nowMs rand store draft = ⟨none, store, []⟩ := by
  obtain ⟨ot, og, op⟩ := draft
  simp only at hBtype hBgeom
  subst hBtype hBgeom
  cases op with
  | none => simp [addHazard]
  | some pr =>
      simp only [addHazard]
      split
      · rfl
      · split
        · rfl
        · split
          · rfl
          · exfalso
            rename_i hnodup
            rw [Bool.not_eq_true, List.any_eq_false] at hnodup
            have hfA := hnodup A hA
            rw [hAgeom] at hfA
            simp [hdist] at hfA

/-- Claim C3 witness fixture: the stored hazard. -/
def c3Stored : Hazard := ⟨"accident-1-x", "accident", .point 72 19, ⟨1, "d", 0⟩⟩

/-- Claim C3 witness fixture: the rejected nearby draft. -/
def c3Draft : HazardDraft :=
  ⟨some "accident", some (.point (721/10) (191/10)), some ⟨some 2, none⟩⟩

/-- Claim C3 witness: a concrete same-kind Point pair within 100 m is
rejected with the store and event log untouched. -/
theorem addHazard_rejects_nearby_same_kind_witness :
    c3Stored ∈ [c3Stored]
    ∧ (fun _ _ => (50 : ℚ)) (P.mk 19 72) (P.mk (191/10) (721/10)) < 100
    ∧ addHazard (fun _ _ => (50 : ℚ)) 5 "r" [c3Stored] c3Draft
        = ⟨none, [c3Stored], []⟩ :=
  ⟨by decide, by norm_num,
   addHazard_rejects_nearby_same_kind (fun _ _ => (50 : ℚ)) 5 "r" [c3Stored]
     c3Draft c3Stored 72 19 (721/10) (191/10) (by decide) rfl rfl rfl
     (by norm_num)⟩

/-! ## Claim C10 — Polygon drafts bypass coordinate and duplicate checks -/

/-- Claim C10: `addHazard` applies coordinate-range validation only to Point
geometry, and the duplicate check only compares Point/Point pairs, so every
Polygon draft whose `type` (truthy), `geometry` and `properties` fields are
present is accepted and appended to the store with a `hazardAdded` event —
for any store contents, any coordinate values and any distance oracle. -/
theorem addHazard_accepts_any_polygon
    (hav : P → P → ℚ) (nowMs : ℕ) (rand : String) (store : List Hazard)
    (draft : HazardDraft) (t : String) (ring : List (ℚ × ℚ)) (pr : DraftProps)
    (ht : draft.type = some t) (hne : t ≠ "")
    (hg : draft.geometry = some (.polygon ring))
    (hp : draft.properties = some pr) :
    ∃ h : Hazard,
      addHazard hav nowMs rand store draft = ⟨some h, store ++ [h], [.hazardAdded h]⟩
      ∧ h.type = t ∧ h.geometry = .polygon ring := by
  obtain ⟨ot, og, op⟩ := draft
  simp only at ht hg hp
  subst ht hg hp
  refine ⟨{ id := t ++ "-" ++ toString nowMs ++ "-" ++ rand
            type := t
            geometry := .polygon ring
            props := { severity := clampQ (jsOrQ pr.severity 1) 1 3
                       description := jsOrStr pr.description ("Reported " ++ t)
                       updatedAt := (nowMs : ℚ) } }, ?_, rfl, rfl⟩
  simp only [addHazard, if_neg hne]
  split
  · rename_i hcoords
    simp at hcoords
  · split
    · exfalso
      rename_i hdup
      obtain ⟨x, -, hfx⟩ := List.any_eq_true.mp hdup
      cases hx : x.geometry <;> rw [hx] at hfx <;> simp at hfx
    · rfl

/-- Claim C10 witness fixture: the polygon draft. -/
def c10Draft : HazardDraft :=
  ⟨some "riskArea", some (.polygon [(72, 19), (73, 19), (72, 19)]),
   some ⟨some 7, none⟩⟩

/-- Claim C10 witness: a concrete Polygon draft is accepted even though a
hazard already exists at distance 0 from it (oracle constantly 0). -/
theorem addHazard_accepts_any_polygon_witness :
    c10Draft.type = some "riskArea" ∧ "riskArea" ≠ ""
    ∧ ∃ h : Hazard,
        addHazard (fun _ _ => (0 : ℚ)) 5 "r" [c3Stored] c10Draft
          = ⟨some h, [c3Stored] ++ [h], [.hazardAdded h]⟩
        ∧ h.type = "riskArea"
        ∧ h.geometry = .polygon [(72, 19), (73, 19), (72, 19)] :=
  ⟨rfl, by decide,
   addHazard_accepts_any_polygon (fun _ _ => (0 : ℚ)) 5 "r" [c3Stored]
     c10Draft "riskArea" [(72, 19), (73, 19), (72, 19)] ⟨some 7, none⟩
     rfl (by decide) rfl rfl⟩

/-! ## Claim C2 — the hazard expiry sweep -/

/-- Claim C2 counterexample fixtures: a pothole whose `updatedAt` is six
minutes old at sweep time `600000`, and a runtime-added riskArea hazard
(id stamped `riskArea-…` by `addHazard`) twenty minutes old. -/
def c2Pothole : Hazard :=
  ⟨"pothole-240000-x", "pothole", .point 72 19, ⟨1, "d", 240000⟩⟩

/-- Claim C2 fixture: a riskArea hazard with an `addHazard`-shaped id. -/
def c2RiskArea : Hazard :=
  ⟨"riskArea-0-x", "riskArea", .polygon [(72, 19), (73, 19), (73, 20), (72, 19)],
   ⟨2, "d", 0⟩⟩

/-- Claim C2 counterexample: at sweep time 600000 ms the sweep removes both
a pothole only six minutes old — inside the claimed 10-minute retention
window — and a hazard of kind `riskArea` (added at runtime, so its id is
`riskArea-…`, which does not carry the exempting `risk-` prefix), which the
claim says is never removed regardless of age. -/
theorem expirySweep_violates_ten_minute_and_riskArea_exemption :
    expirySweep 600000 [c2Pothole, c2RiskArea] = []
    ∧ c2Pothole.type ≠ "riskArea"
    ∧ 600000 - c2Pothole.props.updatedAt < 10 * 60 * 1000
    ∧ c2RiskArea.type = "riskArea" := by
  refine ⟨?_, by decide, by norm_num [c2Pothole], by decide⟩
  simp [expirySweep, c2Pothole, c2RiskArea, idKeptBySweep]
  norm_num

/-- Claim C2 (amended): the sweep keeps exactly the hazards whose
`updatedAt` is strictly newer than the 5-minute retention window or whose
id starts with `risk-` (the seeded risk-area hazards); kind plays no role.
A hazard stored by `addHazard` with kind `riskArea` receives an id starting
`riskArea-`, which is not the exempting prefix, so runtime-added risk areas
expire like every other hazard. -/
theorem expirySweep_retention_characterization :
    (∀ (now : ℚ) (hazards : List Hazard) (h : Hazard), h ∈ hazards →
      (h ∈ expirySweep now hazards ↔
        (now - h.props.updatedAt < 300000 ∨ idKeptBySweep h.id = true)))
    ∧ (∀ (hav : P → P → ℚ) (nowMs : ℕ) (rand : String) (store : List Hazard)
        (draft : HazardDraft) (h : Hazard) (st : List Hazard)
        (evs : List HazardEvent),
        addHazard hav nowMs rand store draft = ⟨some h, st, evs⟩ →
        draft.type = some "riskArea" →
        idKeptBySweep h.id = false) := by
  constructor
  · intro now hazards h hmem
    simp only [expirySweep, List.mem_filter, hmem, true_and, Bool.or_eq_true,
      decide_eq_true_eq]
    constructor
    · rintro (hgt | hid)
      · left; linarith
      · right; exact hid
    · rintro (hlt | hid)
      · left; linarith
      · right; exact hid
  · intro hav nowMs rand store draft h st evs heq htype
    obtain ⟨ot, og, op⟩ := draft
    simp only at htype
    subst htype
    cases og with
    | none => simp [addHazard] at heq
    | some geom =>
        cases op with
        | none => simp [addHazard] at heq
        | some pr =>
            simp only [addHazard] at heq
            split at heq
            · simp at heq
            · split at heq
              · simp at heq
              · split at heq
                · simp at heq
                · have hres := congrArg AddResult.result heq
                  simp only at hres
                  rw [Option.some.injEq] at hres
                  subst hres
                  rfl

/-- Claim C2 witness fixture: the hazard produced by
`addHazard (fun _ _ => 0) 5 "r" [] c10Draft`. -/
def c2AddedHazard : Hazard :=
  ⟨"riskArea-5-r", "riskArea", .polygon [(72, 19), (73, 19), (72, 19)],
   ⟨3, "Reported riskArea", 5⟩⟩

/-- Claim C2 witness: instantiates both halves of
`expirySweep_retention_characterization` — the membership characterization
on a one-hazard store, and the id-prefix fact for a concretely added
riskArea hazard. -/
theorem expirySweep_retention_characterization_witness :
    (c2Pothole ∈ [c2Pothole]
      ∧ (c2Pothole ∈ expirySweep 600000 [c2Pothole] ↔
          ((600000 : ℚ) - c2Pothole.props.updatedAt < 300000
            ∨ idKeptBySweep c2Pothole.id = true)))
    ∧ (addHazard (fun _ _ => (0 : ℚ)) 5 "r" [] c10Draft
        = ⟨some c2AddedHazard, [c2AddedHazard], [.hazardAdded c2AddedHazard]⟩
      ∧ c10Draft.type = some "riskArea"
      ∧ idKeptBySweep c2AddedHazard.id = false) := by
  have haddeq : addHazard (fun _ _ => (0 : ℚ)) 5 "r" [] c10Draft
      = ⟨some c2AddedHazard, [c2AddedHazard], [.hazardAdded c2AddedHazard]⟩ := by
    norm_num [addHazard, c10Draft, c2AddedHazard, clampQ, jsOrQ, jsOrStr]
    rfl
  exact ⟨⟨List.mem_singleton.mpr rfl,
      expirySweep_retention_characterization.1 600000 [c2Pothole] c2Pothole
        (List.mem_singleton.mpr rfl)⟩,
    haddeq, rfl,
    expirySweep_retention_characterization.2 (fun _ _ => (0 : ℚ)) 5 "r" []
      c10Draft c2AddedHazard [c2AddedHazard] [.hazardAdded c2AddedHazard]
      haddeq rfl⟩

/-! ## Claim C9 — upcoming hazards are Point-only -/

theorem mem_upcomingStep (hav : P → P → ℚ) (pos : P) (look : ℚ)
    (acc : List UpcomingHazard) (x : RouteHazard) (u : UpcomingHazard)
    (hu : u ∈ upcomingStep hav pos look acc x) :
    u ∈ acc ∨ ∃ lng lat : ℚ, u.h.geometry = .point lng lat := by
  unfold upcomingStep at hu
  cases hx : x.h.geometry with
  | point lng lat =>
      rw [hx] at hu
      simp only at hu
      split at hu
      · rcases List.mem_append.mp hu with h | h
        · exact Or.inl h
        · refine Or.inr ⟨lng, lat, ?_⟩
          rw [List.mem_singleton.mp h]
          exact hx
      · exact Or.inl hu
  | polygon ring =>
      rw [hx] at hu
      exact Or.inl hu

theorem mem_foldl_upcomingStep (hav : P → P → ℚ) (pos : P) (look : ℚ) :
    ∀ (l : List RouteHazard) (acc : List UpcomingHazard) (u : UpcomingHazard),
      u ∈ l.foldl (upcomingStep hav pos look) acc →
      u ∈ acc ∨ ∃ lng lat : ℚ, u.h.geometry = .point lng lat := by
  intro l
  induction l with
  | nil => intro acc u hu; exact Or.inl hu
  | cons x xs ih =>
      intro acc u hu
      rw [List.foldl_cons] at hu
      rcases ih _ u hu with hmem | hpt
      · exact mem_upcomingStep hav pos look acc x u hmem
      · exact Or.inr hpt

/-- Claim C9: every element of `getUpcomingHazards` has Point geometry —
for every store, position, route and look-ahead distance, Polygon hazards
(risk areas included) never appear in the result. -/
theorem getUpcomingHazards_point_only
    (hav : P → P → ℚ) (hazards : List Hazard) (pos : P) (route : Route)
    (look : ℚ) (u : UpcomingHazard)
    (hu : u ∈ getUpcomingHazards hav hazards pos route look) :
    ∃ lng lat : ℚ, u.h.geometry = .point lng lat := by
  unfold getUpcomingHazards at hu
  rw [mem_sortByRel] at hu
  rcases mem_foldl_upcomingStep hav pos look _ [] u hu with hmem | hpt
  · cases hmem
  · exact hpt

/-- Claim C9 witness fixture: a pothole touching the route under the
constant-0 oracle. -/
def c9Point : Hazard := ⟨"pothole-3-x", "pothole", .point 72 19, ⟨1, "d", 0⟩⟩

/-- Claim C9 witness fixture: a two-vertex route. -/
def c9Route : Route := ⟨"r", [⟨0, 0⟩, ⟨1, 1⟩], 1000, 100, [], 0⟩

/-- Claim C9 witness: with a store holding one qualifying Point hazard, the
upcoming-hazards list contains it, and the theorem certifies its geometry
is a Point. -/
theorem getUpcomingHazards_point_only_witness :
    (⟨c9Point, 0, 0⟩ : UpcomingHazard)
        ∈ getUpcomingHazards (fun _ _ => (0 : ℚ)) [c9Point] ⟨0, 0⟩ c9Route 1000
    ∧ ∃ lng lat : ℚ,
        (⟨c9Point, 0, 0⟩ : UpcomingHazard).h.geometry = .point lng lat := by
  have h1 : filterHazardsByRoute (fun _ _ => (0 : ℚ)) [c9Point] c9Route 50
      = [⟨c9Point, 0⟩] := by
    norm_num [filterHazardsByRoute, c9Route, c9Point, getMinDistanceToRoute,
      segPairs, pointToLineDistance, sortByRel, insertSorted]
  have hmem : (⟨c9Point, 0, 0⟩ : UpcomingHazard)
      ∈ getUpcomingHazards (fun _ _ => (0 : ℚ)) [c9Point] ⟨0, 0⟩ c9Route 1000 := by
    unfold getUpcomingHazards
    rw [h1]
    norm_num [upcomingStep, c9Point, sortByRel, insertSorted]
  exact ⟨hmem,
    getUpcomingHazards_point_only (fun _ _ => (0 : ℚ)) [c9Point]
      ⟨0, 0⟩ c9Route 1000 ⟨c9Point, 0, 0⟩ hmem⟩

/-! ## Claim C4 — Point-hazard score contribution -/

theorem safetyWeight_nonneg (t : String) : 0 ≤ safetyWeight t := by
  unfold safetyWeight
  split_ifs <;> norm_num

/-- Claim C4: for a fixed route and a single Point hazard whose minimum
distance to the route is `d`, `calculateSafetyScore` equals
`kindWeight * (1 − d/100)` when `d ≤ 100` and `0` beyond; the contribution
is monotonically non-increasing in `d`, equals the full kind weight at
`d = 0`, and is zero at the buffer edge `d = 100`. -/
theorem calculateSafetyScore_single_point
    (hav : P → P → ℚ) (route : Route) (hid t : String) (props : HazardProps)
    (lng lat d : ℚ)
    (hmd : getMinDistanceToRoute hav ⟨lat, lng⟩ route.coordinates = some d) :
    calculateSafetyScore hav route [⟨hid, t, .point lng lat, props⟩]
        = pointContribution (safetyWeight t) d
    ∧ (∀ d1 d2 : ℚ, d1 ≤ d2 →
        pointContribution (safetyWeight t) d2
          ≤ pointContribution (safetyWeight t) d1)
    ∧ pointContribution (safetyWeight t) 0 = safetyWeight t
    ∧ pointContribution (safetyWeight t) 100 = 0 := by
  have hW := safetyWeight_nonneg t
  refine ⟨?_, ?_, ?_, ?_⟩
  · simp only [calculateSafetyScore, List.foldl_cons, List.foldl_nil, hmd,
      pointContribution]
    split <;> simp
  · intro d1 d2 h12
    unfold pointContribution
    split_ifs with h2 h1 h1
    · nlinarith
    · exact absurd (le_trans h12 h2) h1
    · have h0 : 0 ≤ 1 - d1 / 100 := by
        rw [sub_nonneg, div_le_one (by norm_num : (0:ℚ) < 100)]
        exact h1
      exact mul_nonneg hW h0
    · exact le_refl 0
  · unfold pointContribution
    norm_num
  · unfold pointContribution
    norm_num

/-- Claim C4 witness fixtures. -/
def c4Route : Route := ⟨"r", [⟨0, 0⟩, ⟨1, 1⟩], 1000, 100, [], 0⟩

/-- Claim C4 witness: with a constant-40 m oracle, a single pothole
contributes `10 * (1 − 40/100) = 6`, the contribution is non-increasing,
full weight `10` at distance 0, and `0` at the buffer edge. -/
theorem calculateSafetyScore_single_point_witness :
    getMinDistanceToRoute (fun _ _ => (40 : ℚ)) ⟨19, 72⟩ c4Route.coordinates
        = some 40
    ∧ (calculateSafetyScore (fun _ _ => (40 : ℚ)) c4Route
          [⟨"pothole-2-x", "pothole", .point 72 19, ⟨1, "d", 0⟩⟩]
        = pointContribution (safetyWeight "pothole") 40
      ∧ (∀ d1 d2 : ℚ, d1 ≤ d2 →
          pointContribution (safetyWeight "pothole") d2
            ≤ pointContribution (safetyWeight "pothole") d1)
      ∧ pointContribution (safetyWeight "pothole") 0 = safetyWeight "pothole"
      ∧ pointContribution (safetyWeight "pothole") 100 = 0) :=
  ⟨by norm_num [getMinDistanceToRoute, segPairs, c4Route, pointToLineDistance],
   calculateSafetyScore_single_point (fun _ _ => (40 : ℚ)) c4Route
     "pothole-2-x" "pothole" ⟨1, "d", 0⟩ 72 19 40
     (by norm_num [getMinDistanceToRoute, segPairs, c4Route, pointToLineDistance])⟩

/-! ## Claim C7 — speed derivation of `startGeolocation` -/

/-- Claim C7: a present, non-negative device speed is authoritative; when
the device speed is absent (or negative, or no previous sample exists the
result is null), the speed is derived from distance/time only for
inter-sample intervals strictly between 0.5 s and 10 s and blended as 70 %
previous + 30 % instantaneous when a previous speed exists; outside that
interval the previous speed (or 0) is reused unchanged. -/
theorem computeSpeedMS_spec (hav : P → P → ℚ) (sample : GeoSample)
    (lp : LastPos) :
    (∀ s : ℚ, sample.speed = some s → 0 ≤ s →
        ∀ last : Option LastPos, computeSpeedMS hav sample last = some s)
    ∧ ((∀ s : ℚ, sample.speed = some s → s < 0) →
        ∀ prev : ℚ, lp.speed = some prev →
        1 / 2 < (sample.timestamp - lp.ts) / 1000 →
        (sample.timestamp - lp.ts) / 1000 < 10 →
        computeSpeedMS hav sample (some lp)
          = some (prev * (7 / 10) +
              (hav lp.p sample.pos / ((sample.timestamp - lp.ts) / 1000)) * (3 / 10)))
    ∧ ((∀ s : ℚ, sample.speed = some s → s < 0) →
        ¬(1 / 2 < (sample.timestamp - lp.ts) / 1000
          ∧ (sample.timestamp - lp.ts) / 1000 < 10) →
        computeSpeedMS hav sample (some lp) = some (jsOrQ lp.speed 0)) := by
  refine ⟨?_, ?_, ?_⟩
  · intro s hs hnn last
    simp [computeSpeedMS, hs, hnn]
  · intro hneg prev hprev hlo hhi
    have hfirst : (match sample.speed with
        | some s => if s ≥ 0 then some s else none
        | none => none) = (none : Option ℚ) := by
      cases hss : sample.speed with
      | none => rfl
      | some s => simp [not_le.mpr (hneg s hss)]
    simp only [computeSpeedMS, hfirst, hprev, if_pos (And.intro hlo hhi)]
  · intro hneg hout
    have hfirst : (match sample.speed with
        | some s => if s ≥ 0 then some s else none
        | none => none) = (none : Option ℚ) := by
      cases hss : sample.speed with
      | none => rfl
      | some s => simp [not_le.mpr (hneg s hss)]
    simp only [computeSpeedMS, hfirst, if_neg hout]

/-- Claim C7 witness: a sample with device speed 12 is authoritative; with
speed absent, a 2 s interval blends `10 * 0.7 + 15 * 0.3 = 11.5`; with a
0.1 s interval the previous speed 10 is reused. -/
theorem computeSpeedMS_spec_witness :
    computeSpeedMS (fun _ _ => (30 : ℚ)) ⟨some 12, 5000, ⟨1, 1⟩⟩
        (some ⟨⟨0, 0⟩, 3000, some 10⟩) = some 12
    ∧ computeSpeedMS (fun _ _ => (30 : ℚ)) ⟨none, 5000, ⟨1, 1⟩⟩
        (some ⟨⟨0, 0⟩, 3000, some 10⟩) = some (10 * (7 / 10) + (30 / 2) * (3 / 10))
    ∧ computeSpeedMS (fun _ _ => (30 : ℚ)) ⟨none, 3100, ⟨1, 1⟩⟩
        (some ⟨⟨0, 0⟩, 3000, some 10⟩) = some (jsOrQ (some 10) 0) := by
  refine ⟨?_, ?_, ?_⟩
  · exact (computeSpeedMS_spec (fun _ _ => (30 : ℚ)) ⟨some 12, 5000, ⟨1, 1⟩⟩
      ⟨⟨0, 0⟩, 3000, some 10⟩).1 12 rfl (by norm_num) _
  · have := (computeSpeedMS_spec (fun _ _ => (30 : ℚ)) ⟨none, 5000, ⟨1, 1⟩⟩
      ⟨⟨0, 0⟩, 3000, some 10⟩).2.1 (fun s hs => by cases hs) 10 rfl
      (by norm_num) (by norm_num)
    rw [this]
    norm_num
  · exact (computeSpeedMS_spec (fun _ _ => (30 : ℚ)) ⟨none, 3100, ⟨1, 1⟩⟩
      ⟨⟨0, 0⟩, 3000, some 10⟩).2.2 (fun s hs => by cases hs)
      (by norm_num)

/-! ## Claim C6 — minimum coordinate count of the selected route -/

theorem mem_parseFeatures (r : Route) :
    ∀ (i : ℕ) (fs : List ORSFeature), r ∈ parseFeatures i fs →
      ∃ (j : ℕ) (f : ORSFeature), f ∈ fs ∧ r = mkParsedRoute j f := by
  intro i fs
  induction fs generalizing i with
  | nil => intro hr; simp [parseFeatures] at hr
  | cons f fs ih =>
      intro hr
      rw [parseFeatures] at hr
      rcases List.mem_cons.mp hr with rfl | hr
      · exact ⟨i, f, List.mem_cons_self f fs, rfl⟩
      · obtain ⟨j, g, hg, hmk⟩ := ih (i + 1) hr
        exact ⟨j, g, List.mem_cons_of_mem f hg, hmk⟩

theorem createFallbackRoute_two_coords (hav brg : P → P → ℚ) (start stop : P) :
    2 ≤ (createFallbackRoute hav brg start stop).coordinates.length := by
  unfold createFallbackRoute
  simp [List.length_append]

/-- Claim C6 (amended): the synthesized fallback polyline always has at
least 2 waypoints, so on provider failure or an empty parse the selected
route has ≥ 2 coordinates; parsed provider routes, however, are passed
through with their coordinate sequences unchecked, so the selected route is
only guaranteed ≥ 2 coordinates when every provider feature supplies ≥ 2
coordinates. -/
theorem getBestRoute_min_two_coords
    (hav brg : P → P → ℚ) (start stop : P) (hazards : List Hazard)
    (resp : ORSResponse)
    (hfeat : ∀ fs, resp = .success fs → ∀ f ∈ fs, 2 ≤ f.coordinates.length) :
    2 ≤ (getBestRoute hav brg start stop hazards resp).coordinates.length := by
  unfold getBestRoute
  set routes := getRouteOptions hav brg start stop resp with hroutes
  set scored := routes.map (fun route =>
    { route with safetyScore := calculateSafetyScore hav route hazards })
    with hscored
  have hne : routes ≠ [] := by
    rw [hroutes]
    cases resp with
    | failure => simp [getRouteOptions]
    | success fs =>
        simp only [getRouteOptions]
        split
        · rename_i hpos
          intro hnil
          rw [hnil] at hpos
          simp at hpos
        · simp
  have hsne : scored ≠ [] := by
    rw [hscored]
    simpa using hne
  have hsorted_ne : sortByRel routeLe scored ≠ [] := by
    obtain ⟨x, hx⟩ := List.exists_mem_of_ne_nil scored hsne
    exact List.ne_nil_of_mem ((mem_sortByRel routeLe scored x).mpr hx)
  have hmem := headD_mem (sortByRel routeLe scored)
    (createFallbackRoute hav brg start stop) hsorted_ne
  rw [mem_sortByRel] at hmem
  rw [hscored] at hmem
  obtain ⟨route, hroute, heq⟩ := List.mem_map.mp hmem
  have hcoords : ((sortByRel routeLe scored).headD
      (createFallbackRoute hav brg start stop)).coordinates
      = route.coordinates := by
    rw [← heq]
  rw [hcoords]
  rw [hroutes] at hroute
  cases resp with
  | failure =>
      simp [getRouteOptions] at hroute
      rw [hroute]
      exact createFallbackRoute_two_coords hav brg start stop
  | success fs =>
      simp only [getRouteOptions] at hroute
      split at hroute
      · obtain ⟨j, f, hf, rfl⟩ := mem_parseFeatures route 0 fs hroute
        have hlen := hfeat fs rfl f hf
        simpa [mkParsedRoute] using hlen
      · simp at hroute
        rw [hroute]
        exact createFallbackRoute_two_coords hav brg start stop

/-- Claim C6 witness: on provider failure the fallback route is selected
and has at least two coordinates. -/
theorem getBestRoute_min_two_coords_witness :
    2 ≤ (getBestRoute (fun _ _ => (0 : ℚ)) (fun _ _ => (0 : ℚ)) ⟨0, 0⟩ ⟨1, 1⟩
          [] .failure).coordinates.length :=
  getBestRoute_min_two_coords (fun _ _ => (0 : ℚ)) (fun _ _ => (0 : ℚ))
    ⟨0, 0⟩ ⟨1, 1⟩ [] .failure (fun fs h => by cases h)

/-- Claim C6 counterexample fixture: a provider response with one feature
carrying a single coordinate. -/
def c6Resp : ORSResponse := .success [⟨[(72, 19)], none, none, []⟩]

/-- Claim C6 counterexample: for the degenerate (but tolerated) provider
response `c6Resp`, `getBestRoute` returns the parsed route unchanged, with
exactly one coordinate — fewer than the claimed minimum of 2. -/
theorem getBestRoute_single_coordinate :
    (getBestRoute (fun _ _ => (0 : ℚ)) (fun _ _ => (0 : ℚ)) ⟨0, 0⟩ ⟨1, 1⟩
        [] c6Resp).coordinates = [⟨19, 72⟩]
    ∧ ¬ 2 ≤ (getBestRoute (fun _ _ => (0 : ℚ)) (fun _ _ => (0 : ℚ)) ⟨0, 0⟩
          ⟨1, 1⟩ [] c6Resp).coordinates.length := by
  have heval : (getBestRoute (fun _ _ => (0 : ℚ)) (fun _ _ => (0 : ℚ)) ⟨0, 0⟩
      ⟨1, 1⟩ [] c6Resp).coordinates = [⟨19, 72⟩] := by
    norm_num [getBestRoute, getRouteOptions, c6Resp, parseORSResponse,
      parseFeatures, mkParsedRoute, sortByRel, insertSorted,
      calculateSafetyScore, jsOrQ]
  refine ⟨heval, ?_⟩
  rw [heval]
  norm_num

/-! ## Claim C1 — single reroute in flight -/

theorem updateNavigationStats_isNavigating (hav : P → P → ℚ)
    (hz : List Hazard) (s : NavState) :
    (updateNavigationStats hav hz s).isNavigating = s.isNavigating := by
  unfold updateNavigationStats
  split <;> rfl

theorem updateNavigationStats_isRerouting (hav : P → P → ℚ)
    (hz : List Hazard) (s : NavState) :
    (updateNavigationStats hav hz s).isRerouting = s.isRerouting := by
  unfold updateNavigationStats
  split <;> rfl

theorem updateNavigationStats_currentRoute (hav : P → P → ℚ)
    (hz : List Hazard) (s : NavState) :
    (updateNavigationStats hav hz s).currentRoute = s.currentRoute := by
  unfold updateNavigationStats
  split <;> rfl

theorem updateNavigationStats_destination (hav : P → P → ℚ)
    (hz : List Hazard) (s : NavState) :
    (updateNavigationStats hav hz s).destination = s.destination := by
  unfold updateNavigationStats
  split <;> rfl

theorem updateNavigationStats_currentPosition (hav : P → P → ℚ)
    (hz : List Hazard) (s : NavState) :
    (updateNavigationStats hav hz s).currentPosition = s.currentPosition := by
  unfold updateNavigationStats
  split <;> rfl

theorem updateNavigationStats_lastRerouteTime (hav : P → P → ℚ)
    (hz : List Hazard) (s : NavState) :
    (updateNavigationStats hav hz s).lastRerouteTime = s.lastRerouteTime := by
  unfold updateNavigationStats
  split <;> rfl

theorem updateNavigationStats_settings (hav : P → P → ℚ)
    (hz : List Hazard) (s : NavState) :
    (updateNavigationStats hav hz s).settings = s.settings := by
  unfold updateNavigationStats
  split <;> rfl

/-- Claim C1 (amended): while a reroute is in flight (`isRerouting = true`)
a deviation-triggered reroute request is dropped as a no-op — no request is
issued and no `rerouting` event fires — but `forceReroute` does NOT respect
the in-flight flag: whenever the session is navigating with a position and
destination it issues a new reroute computation unconditionally, even while
`isRerouting` is already true. -/
theorem reroute_inflight_policy :
    (∀ (hav : P → P → ℚ) (hz : List Hazard) (now : ℚ)
        (outcome : RerouteOutcome) (s : NavState) (p : P),
        s.isRerouting = true →
        (handlePositionUpdate hav hz now outcome s p).requestIssued = false
        ∧ NavEvent.rerouting ∉ (handlePositionUpdate hav hz now outcome s p).events)
    ∧ (∀ (hav : P → P → ℚ) (hz : List Hazard) (outcome : RerouteOutcome)
        (s : NavState) (cp dp : P),
        s.isNavigating = true → s.currentPosition = some cp →
        s.destination = some dp →
        (forceReroute hav hz outcome s).requestIssued = true) := by
  constructor
  · intro hav hz now outcome s p hre
    unfold handlePositionUpdate
    split
    · exact ⟨rfl, by simp⟩
    · simp only [hre, Bool.not_true, Bool.and_false]
      constructor
      · split
        · rename_i hcond
          simp [hre] at hcond
        · split <;> rfl
      · split
        · rename_i hcond
          simp [hre] at hcond
        · split <;> simp
  · intro hav hz outcome s cp dp hnav hp hd
    unfold forceReroute
    rw [if_neg (by simp [hnav, hp, hd])]
    cases outcome <;> rfl

/-- Claim C1 counterexample fixtures. -/
def c1Route : Route := ⟨"r1", [⟨1, 1⟩, ⟨2, 2⟩], 1000, 100, [], 0⟩

/-- Claim C1 fixture: the replacement route. -/
def c1Route2 : Route := ⟨"r2", [⟨3, 3⟩, ⟨4, 4⟩], 900, 90, [], 0⟩

/-- Claim C1 fixture: an Active session with a reroute already in flight. -/
def c1State : NavState :=
  ⟨true, true, some c1Route, some ⟨9, 9⟩, some ⟨0, 0⟩, 0, {}, initialStats⟩

/-- Claim C1 counterexample: in a session state with `isRerouting = true`,
`forceReroute` is not a no-op — it issues a second reroute computation and
replaces the current route. -/
theorem forceReroute_ignores_inflight_flag :
    c1State.isRerouting = true
    ∧ (forceReroute (fun _ _ => (200 : ℚ)) [] (.ok c1Route2) c1State).requestIssued
        = true
    ∧ (forceReroute (fun _ _ => (200 : ℚ)) []
        (.ok c1Route2) c1State).state.currentRoute = some c1Route2 := by
  refine ⟨rfl, ?_, ?_⟩
  · simp [forceReroute, c1State]
  · simp [forceReroute, c1State, updateNavigationStats_currentRoute]

/-- Claim C1 witness: instantiates `reroute_inflight_policy` on the
concrete in-flight state `c1State`. -/
theorem reroute_inflight_policy_witness :
    c1State.isRerouting = true
    ∧ (handlePositionUpdate (fun _ _ => (200 : ℚ)) [] 100000 (.ok c1Route2)
        c1State ⟨5, 5⟩).requestIssued = false
    ∧ NavEvent.rerouting ∉ (handlePositionUpdate (fun _ _ => (200 : ℚ)) []
        100000 (.ok c1Route2) c1State ⟨5, 5⟩).events
    ∧ c1State.isNavigating = true
    ∧ (forceReroute (fun _ _ => (200 : ℚ)) [] (.ok c1Route2)
        c1State).requestIssued = true :=
  ⟨rfl,
   (reroute_inflight_policy.1 (fun _ _ => (200 : ℚ)) [] 100000 (.ok c1Route2)
     c1State ⟨5, 5⟩ rfl).1,
   (reroute_inflight_policy.1 (fun _ _ => (200 : ℚ)) [] 100000 (.ok c1Route2)
     c1State ⟨5, 5⟩ rfl).2,
   rfl,
   reroute_inflight_policy.2 (fun _ _ => (200 : ℚ)) [] (.ok c1Route2) c1State
     ⟨0, 0⟩ ⟨9, 9⟩ rfl rfl rfl⟩

/-! ## Claim C5 — deviation triggers one reroute, then the cooldown holds -/

theorem findClosestAux_distance_big (hav : P → P → ℚ) (pos : P) (th : ℚ) :
    ∀ (coords : List P) (i : ℕ) (acc : ClosestPt),
      (∀ c ∈ coords, th < hav pos c) → (th : WithTop ℚ) < acc.distance →
      (th : WithTop ℚ) < (findClosestAux hav pos coords i acc).distance := by
  intro coords
  induction coords with
  | nil => intro i acc _ hacc; exact hacc
  | cons c rest ih =>
      intro i acc h hacc
      rw [findClosestAux]
      apply ih
      · exact fun c2 hc2 => h c2 (List.mem_cons_of_mem c hc2)
      · split
        · show (th : WithTop ℚ) < ((hav pos c : ℚ) : WithTop ℚ)
          exact_mod_cast h c (List.mem_cons_self c rest)
        · exact hacc

theorem findClosest_offroute (hav : P → P → ℚ) (pos : P) (coords : List P)
    (th : ℚ) (h : ∀ c ∈ coords, th < hav pos c) :
    (th : WithTop ℚ) < (findClosestPointOnRoute hav pos coords).distance :=
  findClosestAux_distance_big hav pos th coords 0 _ h (WithTop.coe_lt_top th)

theorem handleRouteDeviation_within_cooldown (hav : P → P → ℚ)
    (hz : List Hazard) (now : ℚ) (outcome : RerouteOutcome) (s : NavState)
    (h : now - s.lastRerouteTime < s.settings.rerouteDelay) :
    handleRouteDeviation hav hz now outcome s = ⟨s, false, []⟩ := by
  unfold handleRouteDeviation
  rw [if_pos h]

theorem handleRouteDeviation_ok_after_cooldown (hav : P → P → ℚ)
    (hz : List Hazard) (now : ℚ) (r2 : Route) (s : NavState)
    (h : ¬ now - s.lastRerouteTime < s.settings.rerouteDelay) :
    handleRouteDeviation hav hz now (.ok r2) s =
      ⟨{ updateNavigationStats hav hz
          { s with isRerouting := true, lastRerouteTime := now,
                   currentRoute := some r2 } with isRerouting := false },
       true, [.rerouting, .routeUpdated "deviation"]⟩ := by
  unfold handleRouteDeviation
  rw [if_neg h]

/-- Off-route position update in an Active, non-rerouting session, after
the cooldown has elapsed, with a successful reroute: one `rerouting` event,
a request issued, and the session fields afterwards. -/
theorem handlePositionUpdate_offroute_triggers (hav : P → P → ℚ)
    (hz : List Hazard) (now : ℚ) (r r2 : Route) (dest : P) (s : NavState)
    (p : P)
    (hnav : s.isNavigating = true) (hroute : s.currentRoute = some r)
    (hrer : s.isRerouting = false) (hdest : s.destination = some dest)
    (hoff : ∀ c ∈ r.coordinates, s.settings.routeDeviationThreshold < hav p c)
    (hcool : ¬ now - s.lastRerouteTime < s.settings.rerouteDelay)
    (hfar : ¬ hav p dest < 50) :
    ∃ s2 : NavState,
      handlePositionUpdate hav hz now (.ok r2) s p
        = ⟨s2, true, [.rerouting, .routeUpdated "deviation", .positionUpdated]⟩
      ∧ s2.isNavigating = true ∧ s2.isRerouting = false
      ∧ s2.currentRoute = some r2 ∧ s2.destination = some dest
      ∧ s2.currentPosition = some p ∧ s2.lastRerouteTime = now
      ∧ s2.settings = s.settings := by
  have hclosest :=
    findClosest_offroute hav p r.coordinates s.settings.routeDeviationThreshold
      hoff
  unfold handlePositionUpdate
  rw [if_neg (by simp [hnav, hroute])]
  simp only [hroute, Option.getD_some, hrer, Bool.not_false, Bool.and_true]
  rw [decide_eq_true hclosest]
  rw [if_pos rfl]
  rw [handleRouteDeviation_ok_after_cooldown hav hz now r2 _
    (by simpa using hcool)]
  simp only [updateNavigationStats_destination]
  rw [if_neg (by simp only [hdest, Option.getD_some]; exact hfar)]
  refine ⟨_, rfl, ?_, rfl, ?_, ?_, ?_, ?_, ?_⟩
  · simp [updateNavigationStats_isNavigating, hnav]
  · simp [updateNavigationStats_currentRoute]
  · simp [updateNavigationStats_destination, hdest]
  · simp [updateNavigationStats_currentPosition]
  · simp [updateNavigationStats_lastRerouteTime]
  · simp [updateNavigationStats_settings]

/-- Off-route position update in an Active, non-rerouting session while
the cooldown has not yet elapsed: the reroute is skipped — no request, no
`rerouting` event — and only `positionUpdated` fires. -/
theorem handlePositionUpdate_offroute_cooldown (hav : P → P → ℚ)
    (hz : List Hazard) (now : ℚ) (outcome : RerouteOutcome) (r : Route)
    (dest : P) (s : NavState) (p : P)
    (hnav : s.isNavigating = true) (hroute : s.currentRoute = some r)
    (hrer : s.isRerouting = false) (hdest : s.destination = some dest)
    (hoff : ∀ c ∈ r.coordinates, s.settings.routeDeviationThreshold < hav p c)
    (hcool : now - s.lastRerouteTime < s.settings.rerouteDelay)
    (hfar : ¬ hav p dest < 50) :
    (handlePositionUpdate hav hz now outcome s p).requestIssued = false
    ∧ (handlePositionUpdate hav hz now outcome s p).events
        = [.positionUpdated] := by
  have hclosest :=
    findClosest_offroute hav p r.coordinates s.settings.routeDeviationThreshold
      hoff
  unfold handlePositionUpdate
  rw [if_neg (by simp [hnav, hroute])]
  simp only [hroute, Option.getD_some, hrer, Bool.not_false, Bool.and_true]
  rw [decide_eq_true hclosest]
  rw [if_pos rfl]
  rw [handleRouteDeviation_within_cooldown hav hz now outcome _
    (by simpa using hcool)]
  simp only [updateNavigationStats_destination]
  rw [if_neg (by simp only [hdest, Option.getD_some]; exact hfar)]
  exact ⟨rfl, rfl⟩

/-- Claim C5: in an Active session with the default settings
(deviationThreshold 100 m, cooldown 5 s), a position update farther than
100 m from every route vertex at t = 100000 ms (with `lastRerouteAt = 0`)
enters `Rerouting` exactly once and issues one reroute; a second off-route
update 2 s later does not trigger a second reroute because the cooldown has
not elapsed. -/
theorem deviation_reroutes_once_then_cooldown
    (hav : P → P → ℚ) (hz : List Hazard) (r r2 : Route) (p0 p1 p2 dest : P)
    (rr2 : RerouteOutcome)
    (hoff1 : ∀ c ∈ r.coordinates, (100 : ℚ) < hav p1 c)
    (hfar1 : ¬ hav p1 dest < 50)
    (hoff2 : ∀ c ∈ r2.coordinates, (100 : ℚ) < hav p2 c)
    (hfar2 : ¬ hav p2 dest < 50) :
    ∀ first second : StepResult,
      first = handlePositionUpdate hav hz 100000 (.ok r2)
        ⟨true, false, some r, some dest, some p0, 0, {}, initialStats⟩ p1 →
      second = handlePositionUpdate hav hz 102000 rr2 first.state p2 →
      first.events.count NavEvent.rerouting = 1
      ∧ first.requestIssued = true
      ∧ second.requestIssued = false
      ∧ second.events.count NavEvent.rerouting = 0 := by
  intro first second hf hs
  obtain ⟨s2, heq, h2nav, h2rer, h2route, h2dest, h2pos, h2time, h2set⟩ :=
    handlePositionUpdate_offroute_triggers hav hz 100000 r r2 dest
      ⟨true, false, some r, some dest, some p0, 0, {}, initialStats⟩ p1
      rfl rfl rfl rfl hoff1 (by norm_num) hfar1
  rw [heq] at hf
  have hstate : first.state = s2 := by rw [hf]
  have hsettings : s2.settings = {} := h2set
  obtain ⟨hreq2, hev2⟩ :=
    handlePositionUpdate_offroute_cooldown hav hz 102000 rr2 r2 dest s2 p2
      h2nav h2route h2rer h2dest
      (by rw [hsettings]; exact hoff2)
      (by rw [hsettings, h2time]; norm_num)
      hfar2
  rw [hstate] at hs
  refine ⟨?_, ?_, ?_, ?_⟩
  · rw [hf]; rfl
  · rw [hf]
  · rw [hs]; exact hreq2
  · rw [hs, hev2]; rfl

/-- Claim C5 witness fixture: the initial route. -/
def c5RouteA : Route := ⟨"r1", [⟨1, 1⟩, ⟨2, 2⟩], 1000, 100, [], 0⟩

/-- Claim C5 witness fixture: the reroute result. -/
def c5RouteB : Route := ⟨"r2", [⟨3, 3⟩, ⟨4, 4⟩], 900, 90, [], 0⟩

/-- Claim C5 witness fixture: the Active session before the first off-route
sample. -/
def c5Start : NavState :=
  ⟨true, false, some c5RouteA, some ⟨9, 9⟩, some ⟨0, 0⟩, 0, {}, initialStats⟩

/-- Claim C5 witness: concrete instantiation with a constant-200 m oracle —
the hypotheses hold and the two updates behave as the theorem states. -/
theorem deviation_reroutes_once_then_cooldown_witness :
    (∀ c ∈ c5RouteA.coordinates, (100 : ℚ) < (fun _ _ => (200 : ℚ)) (P.mk 5 5) c)
    ∧ ((handlePositionUpdate (fun _ _ => (200 : ℚ)) [] 100000 (.ok c5RouteB)
          c5Start ⟨5, 5⟩).events.count NavEvent.rerouting = 1
      ∧ (handlePositionUpdate (fun _ _ => (200 : ℚ)) [] 100000 (.ok c5RouteB)
          c5Start ⟨5, 5⟩).requestIssued = true
      ∧ (handlePositionUpdate (fun _ _ => (200 : ℚ)) [] 102000 (.ok c5RouteB)
          (handlePositionUpdate (fun _ _ => (200 : ℚ)) [] 100000 (.ok c5RouteB)
            c5Start ⟨5, 5⟩).state ⟨6, 6⟩).requestIssued = false
      ∧ (handlePositionUpdate (fun _ _ => (200 : ℚ)) [] 102000 (.ok c5RouteB)
          (handlePositionUpdate (fun _ _ => (200 : ℚ)) [] 100000 (.ok c5RouteB)
            c5Start ⟨5, 5⟩).state ⟨6, 6⟩).events.count NavEvent.rerouting = 0) :=
  ⟨fun c _ => by norm_num,
   deviation_reroutes_once_then_cooldown (fun _ _ => (200 : ℚ)) []
     c5RouteA c5RouteB ⟨0, 0⟩ ⟨5, 5⟩ ⟨6, 6⟩ ⟨9, 9⟩ (.ok c5RouteB)
     (fun c _ => by norm_num) (by norm_num) (fun c _ => by norm_num)
     (by norm_num) _ _ rfl rfl⟩

/-! ## Claim C8 — routeProgress range -/

theorem jsProgress_cases (r : WithTop ℚ) (d : ℚ) :
    (r = ((0 : ℚ) : WithTop ℚ) ∧ d = 0 ∧ jsProgress r d = .nan)
    ∨ (¬(r = ((0 : ℚ) : WithTop ℚ) ∧ d = 0)
        ∧ ∃ q : ℚ, jsProgress r d = .num q ∧ 0 ≤ q ∧ q ≤ 1) := by
  cases r with
  | top =>
      right
      refine ⟨fun h => (WithTop.coe_ne_top (α := ℚ)) h.1.symm, ?_⟩
      by_cases hd : d < 0
      · exact ⟨1, by norm_num [jsProgress, JSNum.ofWithTop, jsDiv, hd, jsSub,
          jsMin, jsMax], by norm_num, le_refl 1⟩
      · exact ⟨0, by norm_num [jsProgress, JSNum.ofWithTop, jsDiv, hd, jsSub,
          jsMin, jsMax], le_refl 0, by norm_num⟩
  | coe q =>
      by_cases hd : d = 0
      · by_cases hq : q = 0
        · subst hd hq
          exact Or.inl ⟨rfl, rfl, by norm_num [jsProgress, JSNum.ofWithTop,
            jsDiv, jsSub, jsMin, jsMax]⟩
        · subst hd
          refine Or.inr ⟨fun h => hq (by exact_mod_cast h.1), ?_⟩
          by_cases hq2 : q > 0
          · exact ⟨0, by norm_num [jsProgress, JSNum.ofWithTop, jsDiv, hq, hq2,
              jsSub, jsMin, jsMax], le_refl 0, by norm_num⟩
          · exact ⟨1, by norm_num [jsProgress, JSNum.ofWithTop, jsDiv, hq, hq2,
              jsSub, jsMin, jsMax], by norm_num, le_refl 1⟩
      · refine Or.inr ⟨fun h => hd h.2, max 0 (min 1 (1 - q / d)), ?_, ?_, ?_⟩
        · norm_num [jsProgress, JSNum.ofWithTop, jsDiv, hd, jsSub, jsMin, jsMax]
        · exact le_max_left 0 _
        · exact max_le (by norm_num) (min_le_left 1 _)

/-- Claim C8 (amended): after a statistics recomputation with a route and a
position present, `routeProgress` is the JS value of
`max(0, min(1, 1 − remaining/route.distance))`; it lies in `[0, 1]` for
every route and position except when the remaining distance and the
route's recorded distance are both zero — then the division is `0/0` and
`routeProgress` is `NaN`, not a number in `[0, 1]`. -/
theorem routeProgress_range (hav : P → P → ℚ) (hz : List Hazard)
    (s : NavState) (route : Route) (pos : P)
    (hr : s.currentRoute = some route) (hp : s.currentPosition = some pos) :
    (updateNavigationStats hav hz s).stats.routeProgress
        = some (jsProgress (remainingDistanceOf hav pos route.coordinates)
            route.distance)
    ∧ (remainingDistanceOf hav pos route.coordinates = ((0 : ℚ) : WithTop ℚ)
        ∧ route.distance = 0 →
        (updateNavigationStats hav hz s).stats.routeProgress = some JSNum.nan)
    ∧ (¬(remainingDistanceOf hav pos route.coordinates = ((0 : ℚ) : WithTop ℚ)
          ∧ route.distance = 0) →
        ∃ q : ℚ, (updateNavigationStats hav hz s).stats.routeProgress
            = some (.num q) ∧ 0 ≤ q ∧ q ≤ 1) := by
  have heq : (updateNavigationStats hav hz s).stats.routeProgress
      = some (jsProgress (remainingDistanceOf hav pos route.coordinates)
          route.distance) := by
    unfold updateNavigationStats
    rw [hr, hp]
  refine ⟨heq, ?_, ?_⟩
  · rintro ⟨h0, hd0⟩
    rcases jsProgress_cases (remainingDistanceOf hav pos route.coordinates)
        route.distance with ⟨-, -, hnan⟩ | ⟨hne, -⟩
    · rw [heq, hnan]
    · exact absurd ⟨h0, hd0⟩ hne
  · intro hne
    rcases jsProgress_cases (remainingDistanceOf hav pos route.coordinates)
        route.distance with ⟨h0, hd0, -⟩ | ⟨-, q, hq, hq0, hq1⟩
    · exact absurd ⟨h0, hd0⟩ hne
    · exact ⟨q, by rw [heq, hq], hq0, hq1⟩

/-- Claim C8 counterexample fixture: the agent's (and destination)
position. -/
def c8Pos : P := ⟨19, 72⟩

/-- Claim C8 fixture: the fallback route from `c8Pos` to itself (recorded
distance 0), as produced when navigation starts at the destination with the
provider failing. -/
def c8Route : Route :=
  createFallbackRoute (fun _ _ => (0 : ℚ)) (fun _ _ => (0 : ℚ)) c8Pos c8Pos

/-- Claim C8 fixture: the Active session on `c8Route` at `c8Pos`. -/
def c8State : NavState :=
  ⟨true, false, some c8Route, some c8Pos, some c8Pos, 0, {}, initialStats⟩

/-- Claim C8 counterexample: with a zero-length route (recorded distance 0)
and the agent on it, the recomputed `routeProgress` is `NaN` — the JS
evaluation of `max(0, min(1, 1 − 0/0))` — which is not a number in
`[0, 1]`. -/
theorem routeProgress_nan_reachable :
    c8Route.distance = 0
    ∧ (updateNavigationStats (fun _ _ => (0 : ℚ)) [] c8State).stats.routeProgress
        = some JSNum.nan
    ∧ ∀ q : ℚ, JSNum.nan ≠ JSNum.num q := by
  have hdist : c8Route.distance = 0 := rfl
  have hcoords : c8Route.coordinates = [c8Pos, c8Pos, c8Pos] := by
    norm_num [c8Route, createFallbackRoute, interpolatePoint, c8Pos,
      List.range_succ]
  have hrem : remainingDistanceOf (fun _ _ => (0 : ℚ)) c8Pos c8Route.coordinates
      = ((0 : ℚ) : WithTop ℚ) := by
    rw [hcoords]
    norm_num [remainingDistanceOf, findClosestPointOnRoute, findClosestAux,
      segPairs]
  have heq : (updateNavigationStats (fun _ _ => (0 : ℚ)) [] c8State).stats.routeProgress
      = some (jsProgress (remainingDistanceOf (fun _ _ => (0 : ℚ)) c8Pos
          c8Route.coordinates) c8Route.distance) := by
    simp only [updateNavigationStats, c8State]
  refine ⟨hdist, ?_, fun q h => JSNum.noConfusion h⟩
  rw [heq, hrem, hdist]
  norm_num [jsProgress, JSNum.ofWithTop, jsDiv, jsSub, jsMin, jsMax]

/-- Claim C8 witness: instantiates `routeProgress_range` on `c8State` —
the formula conjunct holds there, and the NaN conjunct fires since both the
remaining and the recorded distance are zero. -/
theorem routeProgress_range_witness :
    c8State.currentRoute = some c8Route
    ∧ c8State.currentPosition = some c8Pos
    ∧ (updateNavigationStats (fun _ _ => (0 : ℚ)) [] c8State).stats.routeProgress
        = some (jsProgress (remainingDistanceOf (fun _ _ => (0 : ℚ)) c8Pos
            c8Route.coordinates) c8Route.distance) :=
  ⟨rfl, rfl,
   (routeProgress_range (fun _ _ => (0 : ℚ)) [] c8State c8Route c8Pos
     rfl rfl).1⟩

end SmartRoad
